import Mathlib

/-!
Verification of the Eikobot Hyper-V module (`src/hyper_v/__init__.py`).

The Python handlers are shallowly embedded as pure Lean functions.  A handler
call takes an `Env` (the external collaborators: the remote executor oracle,
the JSON parser, and the size-normalization helper) and a `HandlerCtx` (the
mutable call context) and returns the final context together with an optional
uncaught Python exception message.  Context mutation is modelled by explicit
state passing; a raised exception carries the context state at the point of
the raise, matching Python's in-place mutation of the context object.
-/

set_option autoImplicit false

namespace HyperV

/-- `startsWithL n h` is true when the char list `n` is an initial segment of `h`. -/
def startsWithL : List Char → List Char → Bool
  | [], _ => true
  | _ :: _, [] => false
  | a :: as, b :: bs => a == b && startsWithL as bs

/-- `containsL n h`: the char list `n` occurs contiguously somewhere inside `h`.
Models the Python substring test `n in h`. -/
def containsL (n : List Char) : List Char → Bool
  | [] => n.isEmpty
  | b :: bs => startsWithL n (b :: bs) || containsL n bs

/-- Python's `needle in haystack` on strings. -/
def containsSub (haystack needle : String) : Bool :=
  containsL needle.toList haystack.toList

/-- `disagree n h` is true when `n` and `h` differ at some position that both
of them reach; a witness that `n` can never be a prefix of any extension of `h`. -/
def disagree : List Char → List Char → Bool
  | a :: as, b :: bs => a != b || disagree as bs
  | _, _ => false

/-- The OS / host fields of `HyperVHostModel` that the module reads.  The
`install` flag is declared in `src/hyper_v/__init__.py`; `is_windows_host` and
`os_version` come from the inherited eikobot `HostModel` (external to this
repository) and are modelled as the already-resolved values the code reads. -/
structure HyperVHostModel where
  is_windows_host : Bool
  os_version : String
  install : Bool
deriving DecidableEq

/-- `VMSwitchModel`: name and owning host (shared by Internal/Private and, by
inheritance, the base fields of External). -/
structure VMSwitchModel where
  name : String
  vm_host : HyperVHostModel
deriving DecidableEq

/-- `ExternalSwitchModel`: the base switch fields plus the external-only ones.
`allow_management_OS` and `enable_Iov` are Python `bool | None`. -/
structure ExternalSwitchModel where
  name : String
  vm_host : HyperVHostModel
  net_adapter_name : String
  allow_management_OS : Option Bool
  enable_Iov : Option Bool
deriving DecidableEq

/-- View of an `ExternalSwitchModel` through its base class. -/
def ExternalSwitchModel.toBase (m : ExternalSwitchModel) : VMSwitchModel :=
  { name := m.name, vm_host := m.vm_host }

/-- `VHDModel`: `path : Path` is modelled as its rendered string. -/
structure VHDModel where
  path : String
  vm_host : HyperVHostModel
  size : String
  vhd_type : String
deriving DecidableEq

/-- `VMModel` from the source, with Python optional fields as `Option` and
`Path` fields as strings. -/
structure VMModel where
  name : String
  vm_host : HyperVHostModel
  path : Option String
  cpu_count : Int
  boot_device : Option String
  vhds : List VHDModel
  switches : List VMSwitchModel
  iso_path : Option String
  startup_ram : String
  dynamic_ram : Bool
  min_ram : String
  max_ram : String
  automatic_start_action : Option String
  automatic_stop_action : Option String
  automatic_start_delay : Option Int
  secure_boot : Option Bool
  secure_boot_template : Option String
deriving DecidableEq

/-- Dynamically-typed Python values as they occur in this module: JSON parse
results (`json.loads`), change-set values, and the model-object list stored by
`Machine read` under the `net_adapters` change. -/
inductive PyVal where
  | none
  | bool (b : Bool)
  | int (n : Int)
  | str (s : String)
  | list (xs : List PyVal)
  | dict (fields : List (String × PyVal))
  | switchModels (xs : List VMSwitchModel)

mutual

/-- Structural equality on `PyVal` (used as the non-numeric part of Python `==`). -/
def pyBeq : PyVal → PyVal → Bool
  | .none, .none => true
  | .bool a, .bool b => a == b
  | .int a, .int b => a == b
  | .str a, .str b => a == b
  | .list xs, .list ys => pyBeqList xs ys
  | .dict xs, .dict ys => pyBeqDict xs ys
  | .switchModels xs, .switchModels ys => xs == ys
  | _, _ => false

/-- Element-wise structural equality on lists of `PyVal`. -/
def pyBeqList : List PyVal → List PyVal → Bool
  | [], [] => true
  | x :: xs, y :: ys => pyBeq x y && pyBeqList xs ys
  | _, _ => false

/-- Entry-wise structural equality on string-keyed `PyVal` maps. -/
def pyBeqDict : List (String × PyVal) → List (String × PyVal) → Bool
  | [], [] => true
  | (k, v) :: xs, (k', v') :: ys => k == k' && pyBeq v v' && pyBeqDict xs ys
  | _, _ => false

end

/-- Numeric view used by Python `==`: `True`/`False` compare equal to `1`/`0`. -/
def pyNum : PyVal → Option Int
  | .bool b => some (if b then 1 else 0)
  | .int n => some n
  | _ => Option.none

/-- Python `==` on the values this module compares.  Numbers (and booleans,
which Python treats numerically) compare by value; all other comparisons in
the embedded code have a scalar on at least one side, for which structural
equality coincides with Python's. -/
def pyEq (a b : PyVal) : Bool :=
  match pyNum a, pyNum b with
  | some x, some y => x == y
  | _, _ => pyBeq a b

/-- Python `str()` / f-string rendering of the values this module interpolates
into command text (only scalars are ever interpolated by the source). -/
def pyStr : PyVal → String
  | .none => "None"
  | .bool b => if b then "True" else "False"
  | .int n => toString n
  | .str s => s
  | .list _ => "[...]"
  | .dict _ => "[...]"
  | .switchModels _ => "[...]"

/-- First value bound to `k` in an association list (Python dict lookup). -/
def dictGet? (xs : List (String × PyVal)) (k : String) : Option PyVal :=
  match xs with
  | [] => Option.none
  | (k', v) :: t => if k' = k then some v else dictGet? t k

/-- Python `d.get(k)` / `d.get(k, dflt)`: lookup with a default. -/
def dictGetD (xs : List (String × PyVal)) (k : String) (dflt : PyVal) : PyVal :=
  match dictGet? xs k with
  | some v => v
  | Option.none => dflt

/-- Python `d[k] = v`: update in place, keeping insertion order, appending a
fresh key at the end. -/
def dictSet (xs : List (String × PyVal)) (k : String) (v : PyVal) : List (String × PyVal) :=
  match xs with
  | [] => [(k, v)]
  | (k', v') :: t => if k' = k then (k, v) :: t else (k', v') :: dictSet t k v

/-- The runtime class of the resource instance handed to a handler.  The
constructors mirror the concrete model classes of the module; Python's
`isinstance` checks against a base class are modelled by the `as...` views
below, which accept every subclass. -/
inductive Resource where
  | host (m : HyperVHostModel)
  | baseSwitch (m : VMSwitchModel)
  | internalSwitch (m : VMSwitchModel)
  | privateSwitch (m : VMSwitchModel)
  | externalSwitch (m : ExternalSwitchModel)
  | vhd (m : VHDModel)
  | vm (m : VMModel)
deriving DecidableEq

/-- `isinstance(r, HyperVHostModel)` (no subclasses in the module). -/
def asHost : Resource → Option HyperVHostModel
  | .host m => some m
  | _ => Option.none

/-- `isinstance(r, VMSwitchModel)`: true for the base class and all three
switch subclasses; yields the base-class view the shared handler code uses. -/
def asBaseSwitch : Resource → Option VMSwitchModel
  | .baseSwitch m => some m
  | .internalSwitch m => some m
  | .privateSwitch m => some m
  | .externalSwitch m => some m.toBase
  | _ => Option.none

/-- `isinstance(r, InternalSwitchModel)`. -/
def asInternalSwitch : Resource → Option VMSwitchModel
  | .internalSwitch m => some m
  | _ => Option.none

/-- `isinstance(r, PrivateSwitchModel)`. -/
def asPrivateSwitch : Resource → Option VMSwitchModel
  | .privateSwitch m => some m
  | _ => Option.none

/-- `isinstance(r, ExternalSwitchModel)`. -/
def asExternalSwitch : Resource → Option ExternalSwitchModel
  | .externalSwitch m => some m
  | _ => Option.none

/-- `isinstance(r, VHDModel)`. -/
def asVHD : Resource → Option VHDModel
  | .vhd m => some m
  | _ => Option.none

/-- `isinstance(r, VMModel)`. -/
def asVM : Resource → Option VMModel
  | .vm m => some m
  | _ => Option.none

/-- The eikobot `HandlerContext` as this module uses it: the resource under
reconciliation, the `deployed`/`failed` flags, the change set, the extras bag,
and the diagnostics the module emits.  `commands` and `scripts` log every
remote `execute` / `script` call in order, so that "no remote call was issued"
is a provable statement. -/
structure HandlerCtx where
  resource : Resource
  deployed : Bool
  failed : Bool
  changes : List (String × PyVal)
  extras : List (String × PyVal)
  commands : List String
  scripts : List String
  errors : List String
  warnings : List String
  task_id : String

/-- Result of one handler call: the final context plus `some message` when an
uncaught Python exception escaped (the context keeps the mutations made before
the raise, as the real context object would). -/
abbrev Res := HandlerCtx × Option String

/-- The external collaborators, fixed for the duration of one call:
`oracle` is the remote executor (command text to raw output text);
`jparse` is `json.loads` (`Option.none` models a parse error, which the module
never catches); `machineReadable` is modelled from the spec: the
human-readable-to-byte-count size normalization `eikobot.core.helpers
.machine_readable`, external to this repository. -/
structure Env where
  oracle : String → String
  jparse : String → Option PyVal
  machineReadable : String → Int

/-- Log one remote `execute` call. -/
def logCmd (ctx : HandlerCtx) (cmd : String) : HandlerCtx :=
  { ctx with commands := ctx.commands ++ [cmd] }

/-- `ctx.add_change(k, v)` / `ctx.changes[k] = v`. -/
def addChange (ctx : HandlerCtx) (k : String) (v : PyVal) : HandlerCtx :=
  { ctx with changes := dictSet ctx.changes k v }

/-- `ctx.failed = True`. -/
def setFailed (ctx : HandlerCtx) : HandlerCtx :=
  { ctx with failed := true }

/-- `ctx.error(msg)`. -/
def addError (ctx : HandlerCtx) (msg : String) : HandlerCtx :=
  { ctx with errors := ctx.errors ++ [msg] }

/-- `ctx.warning(msg)`. -/
def addWarning (ctx : HandlerCtx) (msg : String) : HandlerCtx :=
  { ctx with warnings := ctx.warnings ++ [msg] }

/-- Modelled from the spec: the eikobot `HandlerContext` (external to this
repository) exposes an extras bag, written via `ctx.extras[k] = v` and read by
subtypes via subscripting the context; a missing key raises, with ordinary
mapping-lookup semantics. -/
def ctxGetItem (ctx : HandlerCtx) (k : String) : Except String PyVal :=
  match dictGet? ctx.extras k with
  | some v => Except.ok v
  | Option.none => Except.error ("KeyError: " ++ k)

/-- `ctx.extras[k] = v`. -/
def setExtra (ctx : HandlerCtx) (k : String) (v : PyVal) : HandlerCtx :=
  { ctx with extras := dictSet ctx.extras k v }

/-- The feature probe issued by `HyperVHostHandler.execute`. -/
def hvFeatureCmd : String :=
  "Get-WindowsOptionalFeature -Online -FeatureName Microsoft-Hyper-V | ConvertTo-Json"

/-- The diagnostic emitted when Hyper-V is absent and `install` is false. -/
def notInstalledMsg : String :=
  "Hyper-V is not installed on target and not set to install. " ++
  "Please manually install Hyper-V or set the install parameter to 'True'."

/-- `HyperVHostHandler.execute`.  The call to the inherited
`HostHandler.execute` is modelled from the spec as the step that establishes
the host connection and OS fingerprint, which the model carries as the
already-resolved `is_windows_host` / `os_version` fields; it touches none of
the state this module reads afterwards. -/
def hyperVHostExecute (env : Env) (ctx : HandlerCtx) : Res :=
  match asHost ctx.resource with
  | Option.none => (setFailed ctx, Option.none)
  | some h =>
    let ctx := { ctx with deployed := false }
    if !h.is_windows_host then
      (setFailed (addError ctx "Host doesn't seem to be a Windows machine."), Option.none)
    else
      let os_string := h.os_version
      if containsSub os_string "10" then
        let ctx := logCmd ctx hvFeatureCmd
        let result := env.oracle hvFeatureCmd
        match env.jparse result with
        | Option.none => (ctx, some "json.JSONDecodeError")
        | some j =>
          match j with
          | .dict output_dict =>
            if pyEq (dictGetD output_dict "State" PyVal.none) (PyVal.int 2) then
              ({ ctx with deployed := true }, Option.none)
            else if h.install then
              (ctx, Option.none)
            else
              (addError (setFailed ctx) notInstalledMsg, Option.none)
          | _ => (ctx, some "AttributeError: result is not a dict")
      else if h.install then
        (ctx, Option.none)
      else
        (addError (setFailed ctx) notInstalledMsg, Option.none)

/-- `Get-VMSwitch -Name "..." | convertto-json` (the source spells the
pipeline suffix in lower case here). -/
def getSwitchCmd (name : String) : String :=
  "Get-VMSwitch -Name \"" ++ name ++ "\" | convertto-json"

/-- The absence diagnostic matched by the switch read. -/
def switchAbsentPhrase : String := "Hyper-V was unable to find a virtual switch"

/-- `VMSwitchHandler.read` (shared by all switch variants). -/
def vmSwitchRead (env : Env) (ctx : HandlerCtx) : Res :=
  match asBaseSwitch ctx.resource with
  | Option.none => (setFailed ctx, Option.none)
  | some s =>
    let cmd := getSwitchCmd s.name
    let ctx := logCmd ctx cmd
    let out := env.oracle cmd
    if containsSub out switchAbsentPhrase then
      (ctx, Option.none)
    else
      let ctx := { ctx with deployed := true }
      match env.jparse out with
      | Option.none => (ctx, some "json.JSONDecodeError")
      | some j => (setExtra ctx "info" j, Option.none)

/-- `InternalSwitchHandler.create`. -/
def internalSwitchCreate (_env : Env) (ctx : HandlerCtx) : Res :=
  match asInternalSwitch ctx.resource with
  | Option.none => (setFailed ctx, Option.none)
  | some s =>
    let cmd := "New-VMSwitch -name \"" ++ s.name ++ "\" -SwitchType Internal"
    let ctx := logCmd ctx cmd
    ({ ctx with deployed := true }, Option.none)

/-- `PrivateSwitchHandler.create`. -/
def privateSwitchCreate (_env : Env) (ctx : HandlerCtx) : Res :=
  match asPrivateSwitch ctx.resource with
  | Option.none => (setFailed ctx, Option.none)
  | some s =>
    let cmd := "New-VMSwitch -name \"" ++ s.name ++ "\" -SwitchType Private"
    let ctx := logCmd ctx cmd
    ({ ctx with deployed := true }, Option.none)

/-- Rendering of an optional Python bool inserted into an f-string. -/
def optBoolVal : Option Bool → PyVal
  | Option.none => PyVal.none
  | some b => PyVal.bool b

/-- Python's `v is None` identity test. -/
def isPyNone : PyVal → Bool
  | .none => true
  | _ => false

/-- The adapter-resolution query issued by `ExternalSwitchHandler.read`. -/
def netAdapterQryCmd (name : String) : String :=
  "(Get-NetAdapter -InterfaceDescription (Get-VMSwitch \"" ++ name ++
  "\").NetAdapterInterfaceDescription).name"

/-- `ExternalSwitchHandler.read`: runs the shared base read, then compares the
parsed switch info and the currently bound adapter against the descriptor.
Faithful to the source: the comparison of the resolved adapter name is against
`ctx.resource.name` (the switch name), and the recorded change value is also
`ctx.resource.name` — not `net_adapter_name`. -/
def externalSwitchRead (env : Env) (ctx : HandlerCtx) : Res :=
  match asExternalSwitch ctx.resource with
  | Option.none => (setFailed ctx, Option.none)
  | some es =>
    match vmSwitchRead env ctx with
    | (ctx, some e) => (ctx, some e)
    | (ctx, Option.none) =>
      match ctxGetItem ctx "info" with
      | Except.error e => (ctx, some e)
      | Except.ok info =>
        match info with
        | .dict fs =>
          let ctx :=
            if !pyEq (dictGetD fs "IovEnabled" PyVal.none) (optBoolVal es.enable_Iov) then
              addChange ctx "IovEnabled" (optBoolVal es.enable_Iov)
            else ctx
          let ctx :=
            if !pyEq (dictGetD fs "AllowManagementOS" PyVal.none)
                (optBoolVal es.allow_management_OS) then
              addChange ctx "AllowManagementOS" (optBoolVal es.allow_management_OS)
            else ctx
          let cmd := netAdapterQryCmd es.name
          let ctx := logCmd ctx cmd
          let net_adapter_name := env.oracle cmd
          if net_adapter_name ≠ es.name then
            (addChange ctx "NetAdapterName" (PyVal.str es.name), Option.none)
          else
            (ctx, Option.none)
        | _ => (ctx, some "AttributeError: info is not a dict")

/-- `ExternalSwitchHandler.create`. -/
def externalSwitchCreate (_env : Env) (ctx : HandlerCtx) : Res :=
  match asExternalSwitch ctx.resource with
  | Option.none => (setFailed ctx, Option.none)
  | some es =>
    let cmd_str := "New-VMSwitch -name \"" ++ es.name ++ "\" " ++ "-SwitchType External " ++
      "-NetAdapterName \"" ++ es.net_adapter_name ++ "\" "
    let cmd_str :=
      match es.allow_management_OS with
      | some b => cmd_str ++ "-AllowManagementOS:$" ++ pyStr (PyVal.bool b) ++ " "
      | Option.none => cmd_str
    let cmd_str :=
      match es.enable_Iov with
      | some b => cmd_str ++ "-EnableIov:$" ++ pyStr (PyVal.bool b)
      | Option.none => cmd_str
    let ctx := logCmd ctx cmd_str
    ({ ctx with deployed := true }, Option.none)

/-- `ExternalSwitchHandler.update`.  Faithful to the source: the
`NetAdapterName` clause carries the change-set value, while the `EnableIov`
and `AllowManagementOS` clauses carry the descriptor's desired values; a key
whose change value is `None` is skipped by the `is not None` tests. -/
def externalSwitchUpdate (_env : Env) (ctx : HandlerCtx) : Res :=
  match asExternalSwitch ctx.resource with
  | Option.none => (setFailed ctx, Option.none)
  | some es =>
    let cmd_str := "Set-VMSwitch -name \"" ++ es.name ++ "\" "
    let net_adapter_name := dictGetD ctx.changes "NetAdapterName" PyVal.none
    let cmd_str :=
      if !isPyNone net_adapter_name then
        cmd_str ++ "-NetAdapterName \"" ++ pyStr net_adapter_name ++ "\" "
      else cmd_str
    let enable_iov := dictGetD ctx.changes "IovEnabled" PyVal.none
    let cmd_str :=
      if !isPyNone enable_iov then
        cmd_str ++ "-EnableIov:$" ++ pyStr (optBoolVal es.enable_Iov) ++ " "
      else cmd_str
    let allow_management_os := dictGetD ctx.changes "AllowManagementOS" PyVal.none
    let cmd_str :=
      if !isPyNone allow_management_os then
        cmd_str ++ "-AllowManagementOS:$" ++ pyStr (optBoolVal es.allow_management_OS) ++ " "
      else cmd_str
    let ctx := logCmd ctx cmd_str
    ({ ctx with deployed := true }, Option.none)

/-- `VHDHandler.create`: one creation command, no existence pre-check; the
`size` string is interpolated verbatim. -/
def vhdCreate (_env : Env) (ctx : HandlerCtx) : Res :=
  match asVHD ctx.resource with
  | Option.none => (setFailed ctx, Option.none)
  | some v =>
    let cmd := "New-VHD -Path \"" ++ v.path ++ "\" -" ++ v.vhd_type ++
      " -SizeBytes " ++ v.size
    let ctx := logCmd ctx cmd
    ({ ctx with deployed := true }, Option.none)

/-- The absence diagnostic matched by the VHD read. -/
def vhdAbsentPhrase : String := "is not an existing virtual hard disk file."

/-- `VHDHandler.read`. -/
def vhdRead (env : Env) (ctx : HandlerCtx) : Res :=
  match asVHD ctx.resource with
  | Option.none => (setFailed ctx, Option.none)
  | some v =>
    let cmd := "Get-VHD \"" ++ v.path ++ "\" | ConvertTo-Json"
    let ctx := logCmd ctx cmd
    let out := env.oracle cmd
    if !containsSub out vhdAbsentPhrase then
      ({ ctx with deployed := true }, Option.none)
    else
      (ctx, Option.none)

/-- Python `int(v)` on the values the module converts. -/
def pyToInt : PyVal → Option Int
  | .int n => some n
  | .bool b => some (if b then 1 else 0)
  | .str s => s.toInt?
  | _ => Option.none

/-- `pathlib.Path(v)`: accepts the string path, raises for any other value
(`Path(None)` and `Path(<number>)` raise `TypeError`). -/
def pathOfVal : PyVal → Option String
  | .str s => some s
  | _ => Option.none

/-- `Path` division `a / b` (paths are modelled by their rendered text). -/
def pathJoin (a b : String) : String := a ++ "/" ++ b

/-- Python iteration over a parsed JSON value; anything but a JSON array is
treated as non-iterable (iterating a JSON object or string would hand the
element subscripts non-dict values and raise a step later; no theorem below
exercises that corner). -/
def asPyList : PyVal → Option (List PyVal)
  | .list xs => some xs
  | _ => Option.none

/-- The `New-VM` command line assembled by `VMHandler.create` (the `-Path`
and `-BootDevice` clauses are appended without a separating space preceding
them, exactly as the source concatenates them). -/
def vmNewVmCmd (vm : VMModel) : String :=
  "New-VM -Name " ++ vm.name ++ " -NoVHD -Generation 2 " ++
  "-MemoryStartupBytes " ++ vm.startup_ram ++ " " ++
  (match vm.path with
   | some p => "-Path \"" ++ p ++ "/VM\""
   | Option.none => "") ++
  (match vm.iso_path with
   | some _ => "-BootDevice \"CD\""
   | Option.none => "")

/-- The `Set-VMMemory` command line assembled by `VMHandler.create`. -/
def vmRamCmd (vm : VMModel) : String :=
  "Set-VMMemory -VMName " ++ vm.name ++ " " ++ "-DynamicMemoryEnabled " ++
  (if vm.dynamic_ram then
    "$true " ++ "-MinimumBytes " ++ vm.min_ram ++ " " ++ "-MaximumBytes " ++ vm.max_ram
  else "$false ")

/-- The `Set-VMFirmware` command line assembled by `VMHandler.create`; the
template clause always binds the fixed certificate-authority identifier. -/
def vmFirmwareCmd (vm : VMModel) (b : Bool) : String :=
  "Set-VMFirmware -VMName " ++ vm.name ++ " " ++
  (if b then "-EnableSecureBoot On " else "-EnableSecureBoot Off ") ++
  (match vm.secure_boot_template with
   | some _ => "-SecureBootTemplate MicrosoftUEFICertificateAuthority"
   | Option.none => "")

/-- One `Add-VMHardDiskDrive` line (the double space before `-Path` is in the
source). -/
def addVhdCmd (vmName path : String) : String :=
  "Add-VMHardDiskDrive -VMName \"" ++ vmName ++ "\" " ++ " -Path \"" ++ path ++ "\"\n"

/-- The single `Remove-VMNetworkAdapter` line of `VMHandler.create`. -/
def rmNetAdapterCmd (vmName : String) : String :=
  "Remove-VMNetworkAdapter -VMName \"" ++ vmName ++ "\" " ++ "-Name \"Network Adapter\"\n"

/-- One `Add-VMNetworkAdapter` line of `VMHandler.create`. -/
def addAdapterCmd (vmName swName : String) : String :=
  "Add-VMNetworkAdapter -VMName \"" ++ vmName ++ "\" " ++
  "-Name \"" ++ swName ++ " Network Adapter\"\n"

/-- One `Connect-VMNetworkAdapter` line of `VMHandler.create`. -/
def connectAdapterCmd (vmName swName : String) : String :=
  "Connect-VMNetworkAdapter -VMName \"" ++ vmName ++ "\" " ++
  "-Name \"" ++ swName ++ " Network Adapter\" " ++ "-SwitchName \"" ++ swName ++ "\"\n"

/-- The composite create script of `VMHandler.create` as the ordered list of
string fragments the source appends to `script`; the submitted script is
their concatenation.  Fragment order follows the source exactly: the leading
newline, the optional `New-Item`, the `New-VM` line, the two `Set-VM`
fragments, the memory line, the optional firmware line, the optional
`Set-VMDvdDrive` (appended after the firmware section), the disk attachments,
the unconditional adapter removal, and one add/connect pair per declared
switch in declaration order. -/
def vmCreateParts (vm : VMModel) (task_id : String) : List String :=
  ["\n"] ++
  (match vm.path with
   | some p => ["New-Item -Path \"" ++ p ++ "/VM\" -ItemType Directory -force\n"]
   | Option.none => []) ++
  [vmNewVmCmd vm ++ "\n"] ++
  ["Set-VM -Name " ++ vm.name ++ " -ProcessorCount " ++ toString vm.cpu_count ++ " "] ++
  ["-Notes \"Eikobot created VM " ++ task_id ++ "\"\n"] ++
  [vmRamCmd vm ++ "\n"] ++
  (match vm.secure_boot with
   | some b => [vmFirmwareCmd vm b ++ "\n"]
   | Option.none => []) ++
  (match vm.iso_path with
   | some ip => ["Set-VMDvdDrive -VMName " ++ vm.name ++ " " ++ "-Path " ++ ip ++ "\n"]
   | Option.none => []) ++
  vm.vhds.map (fun vhd => addVhdCmd vm.name vhd.path) ++
  [rmNetAdapterCmd vm.name] ++
  vm.switches.flatMap (fun s => [addAdapterCmd vm.name s.name, connectAdapterCmd vm.name s.name])

/-- `VMHandler.create`: builds the composite script and submits it once via
`vm.vm_host.script(...)`.  The method has no `isinstance` guard; on a
non-`VMModel` instance the very first attribute interpolation unique to
`VMModel` raises `AttributeError` before any remote call, which the model
surfaces as the exception result. -/
def vmCreate (_env : Env) (ctx : HandlerCtx) : Res :=
  match asVM ctx.resource with
  | some vm =>
    let script := String.join (vmCreateParts vm ctx.task_id)
    ({ ctx with scripts := ctx.scripts ++ [script], deployed := true }, Option.none)
  | Option.none => (ctx, some "AttributeError: resource is not a VMModel")

/-- `Get-VM "..." | ConvertTo-Json`. -/
def getVMCmd (name : String) : String := "Get-VM \"" ++ name ++ "\" | ConvertTo-Json"

/-- The absence diagnostic matched by the machine read. -/
def vmAbsentPhrase : String := "Hyper-V was unable to find a virtual machine"

/-- `Get-VMProcessor "..." | ConvertTo-Json`. -/
def cpuQryCmd (name : String) : String :=
  "Get-VMProcessor \"" ++ name ++ "\" | ConvertTo-Json"

/-- `(Get-VM "...").AutomaticStartAction`. -/
def startActionQry (name : String) : String :=
  "(Get-VM \"" ++ name ++ "\").AutomaticStartAction"

/-- `(Get-VM "...").AutomaticStartDelay`. -/
def startDelayQry (name : String) : String :=
  "(Get-VM \"" ++ name ++ "\").AutomaticStartDelay"

/-- `(Get-VM "...").AutomaticStopAction`. -/
def stopActionQry (name : String) : String :=
  "(Get-VM \"" ++ name ++ "\").AutomaticStopAction"

/-- `(Get-VM "...").SecureBoot`. -/
def secureBootQry (name : String) : String :=
  "(Get-VM \"" ++ name ++ "\").SecureBoot"

/-- `VMHandler._get_cpu_changes`: the processor-state query and comparison.
Note the recorded change value is the observed count, as in the source. -/
def getCpuChanges (env : Env) (vm : VMModel) (ctx : HandlerCtx) : Res :=
  let cmd := cpuQryCmd vm.name
  let ctx := logCmd ctx cmd
  let out := env.oracle cmd
  match env.jparse out with
  | Option.none => (ctx, some "json.JSONDecodeError")
  | some j =>
    match j with
    | .dict cpu_dict =>
      match pyToInt (dictGetD cpu_dict "Count" (PyVal.int 1)) with
      | Option.none => (ctx, some "TypeError: int() argument")
      | some cpu_count =>
        if cpu_count ≠ vm.cpu_count then
          (addChange ctx "cpu_count" (PyVal.int cpu_count), Option.none)
        else (ctx, Option.none)
    | _ => (ctx, some "AttributeError: result is not a dict")

/-- One observed hard-drive entry against a declared path:
`vhd.path == Path(vhd_dict["Path"])`. -/
def vhdDictMatch (p : String) (vhd_dict : PyVal) : Except String Bool :=
  match vhd_dict with
  | .dict fs =>
    match dictGet? fs "Path" with
    | Option.none => Except.error "KeyError: Path"
    | some v =>
      match pathOfVal v with
      | Option.none => Except.error "TypeError: Path() argument"
      | some q => Except.ok (p = q)
  | _ => Except.error "TypeError: vhd entry is not a dict"

/-- The inner `for ... break` of `_compare_vhds`. -/
def findVhdMatch (p : String) : List PyVal → Except String Bool
  | [] => Except.ok false
  | d :: t =>
    match vhdDictMatch p d with
    | Except.error e => Except.error e
    | Except.ok true => Except.ok true
    | Except.ok false => findVhdMatch p t

/-- The outer loop of `_compare_vhds`: unmatched declared disks accumulate one
`Add-VMHardDiskDrive` line each, in declaration order. -/
def buildVhdCmds (vmName : String) (obs : List PyVal) : List VHDModel → Except String String
  | [] => Except.ok ""
  | vhd :: t =>
    match findVhdMatch vhd.path obs with
    | Except.error e => Except.error e
    | Except.ok true => buildVhdCmds vmName obs t
    | Except.ok false =>
      match buildVhdCmds vmName obs t with
      | Except.error e => Except.error e
      | Except.ok rest => Except.ok (addVhdCmd vmName vhd.path ++ rest)

/-- `VMHandler._compare_vhds` (the observed value is only iterated when at
least one disk is declared, as in the source). -/
def compareVhds (vm : VMModel) (vhds : PyVal) (ctx : HandlerCtx) : Res :=
  match vm.vhds with
  | [] => (ctx, Option.none)
  | _ =>
    match asPyList vhds with
    | Option.none => (ctx, some "TypeError: object is not iterable")
    | some obs =>
      match buildVhdCmds vm.name obs vm.vhds with
      | Except.error e => (ctx, some e)
      | Except.ok cmds =>
        if cmds ≠ "" then (addChange ctx "VHDs" (PyVal.str cmds), Option.none)
        else (ctx, Option.none)

/-- `switch.name == net_adapter.get("SwitchName")` for one observed adapter. -/
def netAdapterMatch (swName : String) (net_adapter : PyVal) : Except String Bool :=
  match net_adapter with
  | .dict fs => Except.ok (pyEq (PyVal.str swName) (dictGetD fs "SwitchName" PyVal.none))
  | _ => Except.error "AttributeError: adapter entry has no get"

/-- The inner `for ... break` of `_compare_net_adapters`. -/
def findAdapterMatch (swName : String) : List PyVal → Except String Bool
  | [] => Except.ok false
  | d :: t =>
    match netAdapterMatch swName d with
    | Except.error e => Except.error e
    | Except.ok true => Except.ok true
    | Except.ok false => findAdapterMatch swName t

/-- The outer loop of `_compare_net_adapters`: unmatched declared switches in
declaration order. -/
def buildAddedAdapters (obs : List PyVal) :
    List VMSwitchModel → Except String (List VMSwitchModel)
  | [] => Except.ok []
  | s :: t =>
    match findAdapterMatch s.name obs with
    | Except.error e => Except.error e
    | Except.ok true => buildAddedAdapters obs t
    | Except.ok false =>
      match buildAddedAdapters obs t with
      | Except.error e => Except.error e
      | Except.ok rest => Except.ok (s :: rest)

/-- `VMHandler._compare_net_adapters`. -/
def compareNetAdapters (vm : VMModel) (net_adapters : PyVal) :
    Except String (List VMSwitchModel) :=
  match vm.switches with
  | [] => Except.ok []
  | _ =>
    match asPyList net_adapters with
    | Option.none => Except.error "TypeError: object is not iterable"
    | some obs => buildAddedAdapters obs vm.switches

/-- `VMHandler._compare_ram`: startup size, the dynamic flag, and (only under
dynamic RAM) minimum/maximum, each compared independently through the
byte-count normalization. -/
def compareRam (env : Env) (vm : VMModel) (fs : List (String × PyVal))
    (ctx : HandlerCtx) : HandlerCtx :=
  let ctx :=
    if !pyEq (dictGetD fs "MemoryStartup" PyVal.none)
        (PyVal.int (env.machineReadable vm.startup_ram)) then
      addChange ctx "startup_ram" (PyVal.str vm.startup_ram)
    else ctx
  let ctx :=
    if !pyEq (dictGetD fs "DynamicMemoryEnabled" PyVal.none) (PyVal.bool vm.dynamic_ram) then
      addChange ctx "dynamic_ram" (PyVal.bool vm.dynamic_ram)
    else ctx
  if vm.dynamic_ram then
    let ctx :=
      if !pyEq (dictGetD fs "MemoryMinimum" PyVal.none)
          (PyVal.int (env.machineReadable vm.min_ram)) then
        addChange ctx "min_ram" (PyVal.str vm.min_ram)
      else ctx
    if !pyEq (dictGetD fs "MemoryMaximum" PyVal.none)
        (PyVal.int (env.machineReadable vm.max_ram)) then
      addChange ctx "max_ram" (PyVal.str vm.max_ram)
    else ctx
  else ctx

/-- `VMHandler._compare_startup_options`: each declared optional field issues
its own query; the start-delay comparison puts the raw query output (a Python
`str`) against the declared `int`, exactly as the source's `!=` does. -/
def compareStartupOptions (env : Env) (vm : VMModel) (ctx : HandlerCtx) : HandlerCtx :=
  let ctx :=
    match vm.automatic_start_action with
    | some a =>
      let cmd := startActionQry vm.name
      let ctx := logCmd ctx cmd
      let out := env.oracle cmd
      if !pyEq (PyVal.str out) (PyVal.str a) then
        addChange ctx "automatic_start_action" (PyVal.str a)
      else ctx
    | Option.none => ctx
  let ctx :=
    match vm.automatic_start_delay with
    | some d =>
      let cmd := startDelayQry vm.name
      let ctx := logCmd ctx cmd
      let out := env.oracle cmd
      if !pyEq (PyVal.str out) (PyVal.int d) then
        addChange ctx "automatic_start_delay" (PyVal.int d)
      else ctx
    | Option.none => ctx
  match vm.automatic_stop_action with
  | some a =>
    let cmd := stopActionQry vm.name
    let ctx := logCmd ctx cmd
    let out := env.oracle cmd
    if !pyEq (PyVal.str out) (PyVal.str a) then
      addChange ctx "automatic_stop_action" (PyVal.str a)
    else ctx
  | Option.none => ctx

/-- `VMHandler._compare_secure_boot`, faithful to the source: the boot-state
change is recorded when `(output == "On") == secure_boot` is true (the
equality test is not negated), and the template comparison issues the same
`.SecureBoot` query again and records a change when the output equals the
declared template name. -/
def compareSecureBoot (env : Env) (vm : VMModel) (ctx : HandlerCtx) : HandlerCtx :=
  match vm.secure_boot with
  | Option.none => ctx
  | some b =>
    let cmd := secureBootQry vm.name
    let ctx := logCmd ctx cmd
    let secure_boot := env.oracle cmd
    let ctx :=
      if (secure_boot == "On") == b then
        addChange ctx "secure_boot" (PyVal.bool b)
      else ctx
    match vm.secure_boot_template with
    | Option.none => ctx
    | some t =>
      let cmd2 := secureBootQry vm.name
      let ctx := logCmd ctx cmd2
      let secure_boot_template := env.oracle cmd2
      if secure_boot_template == t then
        addChange ctx "secure_boot_template" (PyVal.str t)
      else ctx

/-- `VMHandler.read`: one VM-state query, absence early return, then the diff
sub-routines in source order, then `deployed = True`.  Like `create`, the
method has no `isinstance` guard (see `vmCreate`). -/
def vmRead (env : Env) (ctx : HandlerCtx) : Res :=
  match asVM ctx.resource with
  | Option.none => (ctx, some "AttributeError: resource is not a VMModel")
  | some vm =>
    let cmd := getVMCmd vm.name
    let ctx := logCmd ctx cmd
    let out := env.oracle cmd
    if containsSub out vmAbsentPhrase then (ctx, Option.none)
    else
      match env.jparse out with
      | Option.none => (ctx, some "json.JSONDecodeError")
      | some j =>
        match j with
        | .dict vm_dict =>
          match pathOfVal (dictGetD vm_dict "ConfigurationLocation" PyVal.none) with
          | Option.none => (ctx, some "TypeError: Path() argument")
          | some path =>
            let ctx :=
              match vm.path with
              | some vp =>
                if path ≠ pathJoin vp ("VM/" ++ vm.name) then
                  addWarning (addChange ctx "path" (PyVal.str path))
                    ("Path of VM config files was changed in model, " ++
                     "but this change is currently not supported and will be ignored.")
                else ctx
              | Option.none => ctx
            match getCpuChanges env vm ctx with
            | (ctx, some e) => (ctx, some e)
            | (ctx, Option.none) =>
              match compareVhds vm (dictGetD vm_dict "HardDrives" (PyVal.list [])) ctx with
              | (ctx, some e) => (ctx, some e)
              | (ctx, Option.none) =>
                match compareNetAdapters vm
                    (dictGetD vm_dict "NetworkAdapters" (PyVal.list [])) with
                | Except.error e => (ctx, some e)
                | Except.ok added_adapters =>
                  let ctx :=
                    if added_adapters ≠ [] then
                      addChange ctx "net_adapters" (PyVal.switchModels added_adapters)
                    else ctx
                  let ctx := compareRam env vm vm_dict ctx
                  let ctx := compareStartupOptions env vm ctx
                  let ctx := compareSecureBoot env vm ctx
                  ({ ctx with deployed := true }, Option.none)
        | _ => (ctx, some "AttributeError: result is not a dict")

/-- The operations that open with an `isinstance` guard (every handler method
of the module except `VMHandler.create` / `VMHandler.read`, which have none). -/
inductive GuardedOp where
  | hostExec
  | switchRead
  | internalCreate
  | privateCreate
  | externalRead
  | externalCreate
  | externalUpdate
  | diskCreate
  | diskRead
deriving DecidableEq

/-- Dispatch a guarded operation. -/
def runGuardedOp : GuardedOp → Env → HandlerCtx → Res
  | .hostExec => hyperVHostExecute
  | .switchRead => vmSwitchRead
  | .internalCreate => internalSwitchCreate
  | .privateCreate => privateSwitchCreate
  | .externalRead => externalSwitchRead
  | .externalCreate => externalSwitchCreate
  | .externalUpdate => externalSwitchUpdate
  | .diskCreate => vhdCreate
  | .diskRead => vhdRead

/-- The `isinstance` test each guarded operation applies to its resource. -/
def opKindOk : GuardedOp → Resource → Bool
  | .hostExec, r => (asHost r).isSome
  | .switchRead, r => (asBaseSwitch r).isSome
  | .internalCreate, r => (asInternalSwitch r).isSome
  | .privateCreate, r => (asPrivateSwitch r).isSome
  | .externalRead, r => (asExternalSwitch r).isSome
  | .externalCreate, r => (asExternalSwitch r).isSome
  | .externalUpdate, r => (asExternalSwitch r).isSome
  | .diskCreate, r => (asVHD r).isSome
  | .diskRead, r => (asVHD r).isSome

/-! ## Concrete fixtures used by witnesses and counterexamples -/

/-- A fresh handler context for a resource, as the orchestrator builds one per
reconciliation call. -/
def freshCtx (r : Resource) : HandlerCtx :=
  { resource := r, deployed := false, failed := false, changes := [], extras := [],
    commands := [], scripts := [], errors := [], warnings := [], task_id := "task-1" }

/-- A Windows-10 host descriptor with `install = False`. -/
def demoHost : HyperVHostModel :=
  { is_windows_host := true, os_version := "Windows 10 Pro", install := false }

/-- Remote answers for a host whose feature query reports `State = 2`. -/
def c1EnvInstalled : Env :=
  { oracle := fun c => if c = hvFeatureCmd then "FEATURE-JSON-2" else "",
    jparse := fun s =>
      if s = "FEATURE-JSON-2" then some (PyVal.dict [("State", PyVal.int 2)])
      else Option.none,
    machineReadable := fun _ => 0 }

/-- Remote answers for a host whose feature query reports `State = 1`. -/
def c1EnvNotInstalled : Env :=
  { oracle := fun c => if c = hvFeatureCmd then "FEATURE-JSON-1" else "",
    jparse := fun s =>
      if s = "FEATURE-JSON-1" then some (PyVal.dict [("State", PyVal.int 1)])
      else Option.none,
    machineReadable := fun _ => 0 }

/-- A machine descriptor with no disks, no switches and no optional fields. -/
def c4Vm : VMModel :=
  { name := "vm0", vm_host := demoHost, path := Option.none, cpu_count := 1,
    boot_device := Option.none, vhds := [], switches := [], iso_path := Option.none,
    startup_ram := "1024MB", dynamic_ram := false, min_ram := "512MB", max_ram := "2048MB",
    automatic_start_action := Option.none, automatic_stop_action := Option.none,
    automatic_start_delay := Option.none, secure_boot := Option.none,
    secure_boot_template := Option.none }

/-- A remote on which every VM query reports the absence diagnostic. -/
def c4Env : Env :=
  { oracle := fun _ =>
      "Get-VM : Hyper-V was unable to find a virtual machine with the name vm0.",
    jparse := fun _ => Option.none,
    machineReadable := fun _ => 0 }

/-- An external switch whose declared adapter is `eth0`. -/
def c2Switch : ExternalSwitchModel :=
  { name := "ext0", vm_host := demoHost, net_adapter_name := "eth0",
    allow_management_OS := some true, enable_Iov := some true }

/-- A remote on which every switch query reports the absence diagnostic. -/
def c2Env : Env :=
  { oracle := fun _ =>
      "Get-VMSwitch : Hyper-V was unable to find a virtual switch with the name ext0.",
    jparse := fun _ => Option.none,
    machineReadable := fun _ => 0 }

/-- An external switch named `ext0` whose declared adapter is `eth0`. -/
def c3Switch : ExternalSwitchModel :=
  { name := "ext0", vm_host := demoHost, net_adapter_name := "eth0",
    allow_management_OS := some true, enable_Iov := some true }

/-- A remote where the switch exists with matching flags and the adapter bound
to the switch is named `eth0` — exactly the declared adapter name. -/
def c3Env : Env :=
  { oracle := fun c =>
      if c = getSwitchCmd "ext0" then "SWITCH-JSON"
      else if c = netAdapterQryCmd "ext0" then "eth0"
      else "",
    jparse := fun s =>
      if s = "SWITCH-JSON" then
        some (PyVal.dict
          [("IovEnabled", PyVal.bool true), ("AllowManagementOS", PyVal.bool true)])
      else Option.none,
    machineReadable := fun _ => 0 }

/-- An external switch with `enable_Iov = False` declared. -/
def c5Switch : ExternalSwitchModel :=
  { name := "ext0", vm_host := demoHost, net_adapter_name := "eth0",
    allow_management_OS := Option.none, enable_Iov := some false }

/-- An inert remote (update issues one command and reads nothing back). -/
def c5Env : Env :=
  { oracle := fun _ => "", jparse := fun _ => Option.none, machineReadable := fun _ => 0 }

/-- An update context whose change set carries `IovEnabled ↦ True` — a value
different from the descriptor's declared `enable_Iov = False`. -/
def c5Ctx : HandlerCtx :=
  { freshCtx (Resource.externalSwitch c5Switch) with
    changes := [("IovEnabled", PyVal.bool true)] }

/-- A 40GB fixed disk descriptor. -/
def c7Vhd : VHDModel :=
  { path := "C:/disks/d0.vhdx", vm_host := demoHost, size := "40GB", vhd_type := "Fixed" }

/-- An inert remote for the disk-creation call. -/
def c7Env : Env :=
  { oracle := fun _ => "", jparse := fun _ => Option.none, machineReadable := fun _ => 0 }

/-- The disk-creation command as the amended claim describes it: the path, the
type flag, and the descriptor's human-readable size string inserted verbatim
after `-SizeBytes`. -/
def vhdCreateCmdSpec (v : VHDModel) : String :=
  "New-VHD -Path \"" ++ v.path ++ "\" -" ++ v.vhd_type ++ " -SizeBytes " ++ v.size

/-- The external-switch update command as the amended claim describes it: one
`Set-VMSwitch` command; a `NetAdapterName` clause carrying the change-set
value when that change is present and not `None`; `EnableIov` and
`AllowManagementOS` clauses carrying the descriptor's desired values when the
corresponding change is present and not `None`; nothing for absent keys. -/
def extUpdateCmdSpec (es : ExternalSwitchModel) (changes : List (String × PyVal)) : String :=
  "Set-VMSwitch -name \"" ++ es.name ++ "\" " ++
  (match dictGet? changes "NetAdapterName" with
   | some PyVal.none => ""
   | Option.none => ""
   | some v => "-NetAdapterName \"" ++ pyStr v ++ "\" ") ++
  (match dictGet? changes "IovEnabled" with
   | some PyVal.none => ""
   | Option.none => ""
   | some _ => "-EnableIov:$" ++ pyStr (optBoolVal es.enable_Iov) ++ " ") ++
  (match dictGet? changes "AllowManagementOS" with
   | some PyVal.none => ""
   | Option.none => ""
   | some _ => "-AllowManagementOS:$" ++ pyStr (optBoolVal es.allow_management_OS) ++ " ")

/-- A disk resource handed (wrongly) to the machine handler. -/
def c6Vhd : VHDModel :=
  { path := "C:/disks/d1.vhdx", vm_host := demoHost, size := "10GB", vhd_type := "Dynamic" }

/-- An inert remote for the wrong-kind calls. -/
def c6Env : Env :=
  { oracle := fun _ => "", jparse := fun _ => Option.none, machineReadable := fun _ => 0 }

/-- Recognizer for the three adapter commands of the machine create script. -/
def isNetAdapterCmd (s : String) : Bool :=
  startsWithL ("Remove-VMNetworkAdapter").toList s.toList ||
  startsWithL ("Add-VMNetworkAdapter").toList s.toList ||
  startsWithL ("Connect-VMNetworkAdapter").toList s.toList

/-- A machine declaring secure boot on with a template name. -/
def c9Vm : VMModel :=
  { c4Vm with
    name := "vm9", secure_boot := some true,
    secure_boot_template := some "MicrosoftUEFICertificateAuthority" }

/-- A remote whose boot-state query answers "On". -/
def c9Env : Env :=
  { oracle := fun c => if c = secureBootQry "vm9" then "On" else "",
    jparse := fun _ => Option.none,
    machineReadable := fun _ => 0 }

/-- A machine with `automatic_start_delay = 5` and no other optional fields. -/
def c10Vm : VMModel :=
  { c4Vm with name := "vm10", automatic_start_delay := some 5 }

/-- A remote on which `vm10` exists; the start-delay query answers the text
"5", which still compares unequal to the integer 5. -/
def c10Env : Env :=
  { oracle := fun c =>
      if c = getVMCmd "vm10" then "VM-JSON"
      else if c = cpuQryCmd "vm10" then "CPU-JSON"
      else if c = startDelayQry "vm10" then "5"
      else "",
    jparse := fun s =>
      if s = "VM-JSON" then
        some (PyVal.dict [("ConfigurationLocation", PyVal.str "C:/vms/vm10")])
      else if s = "CPU-JSON" then some (PyVal.dict [("Count", PyVal.int 1)])
      else Option.none,
    machineReadable := fun _ => 0 }

/-! ## Helper lemmas -/

theorem startsWithL_false_of_disagree :
    ∀ n h : List Char, disagree n h = true → startsWithL n h = false := by
  intro n
  induction n with
  | nil => intro h hd; simp [disagree] at hd
  | cons a as ih =>
    intro h hd
    cases h with
    | nil => simp [startsWithL]
    | cons b bs =>
      simp only [disagree, Bool.or_eq_true, bne_iff_ne, ne_eq] at hd
      cases hd with
      | inl hne => simp [startsWithL, hne]
      | inr htl => simp [startsWithL, ih bs htl]

theorem disagree_append :
    ∀ n h rest : List Char, disagree n h = true → disagree n (h ++ rest) = true := by
  intro n
  induction n with
  | nil => intro h rest hd; simp [disagree] at hd
  | cons a as ih =>
    intro h rest hd
    cases h with
    | nil => simp [disagree] at hd
    | cons b bs =>
      simp only [disagree, Bool.or_eq_true, bne_iff_ne, ne_eq] at hd ⊢
      cases hd with
      | inl hne => exact Or.inl hne
      | inr htl => exact Or.inr (ih bs rest htl)

theorem startsWithL_append_of_le :
    ∀ n h rest : List Char, n.length ≤ h.length →
      startsWithL n (h ++ rest) = startsWithL n h := by
  intro n
  induction n with
  | nil => intro h rest _; simp [startsWithL]
  | cons a as ih =>
    intro h rest hlen
    cases h with
    | nil => simp at hlen
    | cons b bs =>
      have hu : startsWithL (a :: as) ((b :: bs) ++ rest)
          = (a == b && startsWithL as (bs ++ rest)) := rfl
      rw [hu, startsWithL, ih bs rest (by simpa using hlen)]

theorem dictGet?_dictSet_self {xs : List (String × PyVal)} {k : String} {v : PyVal} :
    dictGet? (dictSet xs k v) k = some v := by
  induction xs with
  | nil => simp [dictSet, dictGet?]
  | cons p t ih =>
    obtain ⟨k', v'⟩ := p
    by_cases h : k' = k
    · simp [dictSet, dictGet?, h]
    · simp [dictSet, dictGet?, h, ih]

theorem dictGet?_dictSet_ne {xs : List (String × PyVal)} {k k' : String} {v : PyVal}
    (h : k ≠ k') : dictGet? (dictSet xs k v) k' = dictGet? xs k' := by
  induction xs with
  | nil => simp [dictSet, dictGet?, h]
  | cons p t ih =>
    obtain ⟨k0, v0⟩ := p
    by_cases h0 : k0 = k
    · subst h0
      simp [dictSet, dictGet?, h]
    · simp only [dictSet, if_neg h0, dictGet?]
      by_cases h1 : k0 = k'
      · simp [h1]
      · simp [h1, ih]

theorem pyEq_int_two (v : PyVal) : pyEq v (PyVal.int 2) = true ↔ v = PyVal.int 2 := by
  cases v with
  | bool b => cases b <;> simp [pyEq, pyNum]
  | int n => simp [pyEq, pyNum]
  | none => simp [pyEq, pyNum, pyBeq]
  | str s => simp [pyEq, pyNum, pyBeq]
  | list xs => simp [pyEq, pyNum, pyBeq]
  | dict xs => simp [pyEq, pyNum, pyBeq]
  | switchModels xs => simp [pyEq, pyNum, pyBeq]

/-! ## Claim theorems -/

/-- C1: Host reconciliation end-to-end.  For a `HyperVHostModel` resource that
reports as a Windows host with an OS version string containing "10" and an
unfailed context: when the Hyper-V feature query parses to a record whose
`State` is `2`, `execute` ends with `deployed = true` and `failed` still
false; when `State` is anything other than `2` and `install` is false,
`execute` ends with `failed = true` and emits the
not-installed-and-install-not-permitted diagnostic.  No exception escapes in
either case. -/
theorem hostExecute_windows10_feature_decides
    (env : Env) (ctx : HandlerCtx) (h : HyperVHostModel) (fs : List (String × PyVal))
    (hres : ctx.resource = Resource.host h)
    (hwin : h.is_windows_host = true)
    (h10 : containsSub h.os_version "10" = true)
    (hjson : env.jparse (env.oracle hvFeatureCmd) = some (PyVal.dict fs))
    (hfail : ctx.failed = false) :
    (dictGetD fs "State" PyVal.none = PyVal.int 2 →
      (hyperVHostExecute env ctx).1.deployed = true ∧
      (hyperVHostExecute env ctx).1.failed = false ∧
      (hyperVHostExecute env ctx).2 = Option.none) ∧
    (dictGetD fs "State" PyVal.none ≠ PyVal.int 2 → h.install = false →
      (hyperVHostExecute env ctx).1.failed = true ∧
      notInstalledMsg ∈ (hyperVHostExecute env ctx).1.errors ∧
      (hyperVHostExecute env ctx).2 = Option.none) := by
  constructor
  · intro hstate
    simp only [hyperVHostExecute, hres, asHost, hwin, h10, hjson, hstate, Bool.not_true,
      Bool.false_eq_true, if_false, if_true]
    have h2 : pyEq (PyVal.int 2) (PyVal.int 2) = true := by simp [pyEq, pyNum]
    simp [h2, logCmd, hfail]
  · intro hstate hinstall
    have hpy : pyEq (dictGetD fs "State" PyVal.none) (PyVal.int 2) = false := by
      rcases hb : pyEq (dictGetD fs "State" PyVal.none) (PyVal.int 2) with _ | _
      · rfl
      · exact absurd ((pyEq_int_two _).mp hb) hstate
    simp only [hyperVHostExecute, hres, asHost, hwin, h10, hjson, hpy, hinstall,
      Bool.not_true, Bool.false_eq_true, if_false, if_true]
    simp [addError, setFailed, logCmd]

/-- Witness for C1: the concrete Windows-10 host with `install = False`, once
against a remote reporting `State = 2` (deployed, not failed) and once against
a remote reporting `State = 1` (failed, with the diagnostic). -/
theorem hostExecute_windows10_feature_decides_witness :
    ((hyperVHostExecute c1EnvInstalled (freshCtx (Resource.host demoHost))).1.deployed = true ∧
     (hyperVHostExecute c1EnvInstalled (freshCtx (Resource.host demoHost))).1.failed = false ∧
     (hyperVHostExecute c1EnvInstalled (freshCtx (Resource.host demoHost))).2 = Option.none) ∧
    ((hyperVHostExecute c1EnvNotInstalled (freshCtx (Resource.host demoHost))).1.failed = true ∧
     notInstalledMsg ∈
       (hyperVHostExecute c1EnvNotInstalled (freshCtx (Resource.host demoHost))).1.errors ∧
     (hyperVHostExecute c1EnvNotInstalled (freshCtx (Resource.host demoHost))).2 = Option.none) := by
  constructor
  · exact (hostExecute_windows10_feature_decides c1EnvInstalled
      (freshCtx (Resource.host demoHost)) demoHost [("State", PyVal.int 2)]
      rfl rfl (by decide) rfl rfl).1 rfl
  · exact (hostExecute_windows10_feature_decides c1EnvNotInstalled
      (freshCtx (Resource.host demoHost)) demoHost [("State", PyVal.int 1)]
      rfl rfl (by decide) rfl rfl).2 (by simp [dictGetD, dictGet?]) rfl

/-- C4: Machine read on a host whose VM query output contains the absence
phrase returns normally with `deployed = false`, an empty change set, and the
command log shows exactly the one initial VM-state query — no CPU, RAM,
startup-option or secure-boot query was issued — and no script call. -/
theorem vmRead_absent_vm_clean
    (env : Env) (ctx : HandlerCtx) (vm : VMModel)
    (hres : ctx.resource = Resource.vm vm)
    (habs : containsSub (env.oracle (getVMCmd vm.name)) vmAbsentPhrase = true)
    (hdep : ctx.deployed = false) (hch : ctx.changes = []) (hcmd : ctx.commands = []) :
    (vmRead env ctx).2 = Option.none ∧
    (vmRead env ctx).1.deployed = false ∧
    (vmRead env ctx).1.changes = [] ∧
    (vmRead env ctx).1.commands = [getVMCmd vm.name] ∧
    (vmRead env ctx).1.scripts = ctx.scripts := by
  simp only [vmRead, hres, asVM, logCmd]
  simp [habs, hdep, hch, hcmd]

/-- Witness for C4 at a concrete machine and remote. -/
theorem vmRead_absent_vm_clean_witness :
    (vmRead c4Env (freshCtx (Resource.vm c4Vm))).2 = Option.none ∧
    (vmRead c4Env (freshCtx (Resource.vm c4Vm))).1.deployed = false ∧
    (vmRead c4Env (freshCtx (Resource.vm c4Vm))).1.changes = [] ∧
    (vmRead c4Env (freshCtx (Resource.vm c4Vm))).1.commands = [getVMCmd c4Vm.name] ∧
    (vmRead c4Env (freshCtx (Resource.vm c4Vm))).1.scripts = [] :=
  vmRead_absent_vm_clean c4Env (freshCtx (Resource.vm c4Vm)) c4Vm
    rfl (by decide) rfl rfl rfl

theorem ite_append_skip (p : Prop) [Decidable p] (s t : String) :
    (if p then s ++ t else s) = s ++ (if p then t else "") := by
  split <;> simp

theorem spec_clause_eq (chs : List (String × PyVal)) (k : String) (f : PyVal → String) :
    (match dictGet? chs k with
     | some PyVal.none => ""
     | Option.none => ""
     | some v => f v) =
    (if (!isPyNone (dictGetD chs k PyVal.none)) = true then f (dictGetD chs k PyVal.none)
     else "") := by
  rcases h : dictGet? chs k with _ | v
  · simp [dictGetD, h, isPyNone]
  · cases v <;> simp [dictGetD, h, isPyNone]

/-- C2 (code defect): for the External variant, `read` on an absent switch
does not return normally — the base read's absence early-return is not
propagated, and the subsequent `ctx["info"]` lookup raises on the never-set
extras entry — so absence is not handled as a non-failure for External.  The
change set and `deployed` are still untouched at the raise, and the shared
base read (used by the Internal and Private variants) does return normally
with `deployed` unset, the change set untouched and `failed` unset. -/
theorem externalSwitchRead_absent_raises :
    (externalSwitchRead c2Env (freshCtx (Resource.externalSwitch c2Switch))).2 =
      some "KeyError: info" ∧
    (externalSwitchRead c2Env (freshCtx (Resource.externalSwitch c2Switch))).1.deployed
      = false ∧
    (externalSwitchRead c2Env (freshCtx (Resource.externalSwitch c2Switch))).1.changes = [] ∧
    (externalSwitchRead c2Env (freshCtx (Resource.externalSwitch c2Switch))).1.failed
      = false ∧
    (vmSwitchRead c2Env (freshCtx (Resource.internalSwitch c2Switch.toBase))).2 =
      Option.none ∧
    (vmSwitchRead c2Env (freshCtx (Resource.internalSwitch c2Switch.toBase))).1.deployed
      = false ∧
    (vmSwitchRead c2Env (freshCtx (Resource.internalSwitch c2Switch.toBase))).1.changes
      = [] ∧
    (vmSwitchRead c2Env (freshCtx (Resource.internalSwitch c2Switch.toBase))).1.failed
      = false ∧
    (vmSwitchRead c2Env (freshCtx (Resource.privateSwitch c2Switch.toBase))).2 =
      Option.none ∧
    (vmSwitchRead c2Env (freshCtx (Resource.privateSwitch c2Switch.toBase))).1.deployed
      = false ∧
    (vmSwitchRead c2Env (freshCtx (Resource.privateSwitch c2Switch.toBase))).1.changes
      = [] ∧
    (vmSwitchRead c2Env (freshCtx (Resource.privateSwitch c2Switch.toBase))).1.failed
      = false :=
  ⟨rfl, rfl, rfl, rfl, rfl, rfl, rfl, rfl, rfl, rfl, rfl, rfl⟩

/-- C3 (code defect): with the adapter bound to the switch named exactly the
descriptor's declared `net_adapter_name` ("eth0"), External read still records
a `NetAdapterName` change, and the recorded value is the switch's own name
("ext0"), not the declared adapter name: the source compares the resolved
adapter against `ctx.resource.name` and also stores `ctx.resource.name`. -/
theorem externalSwitchRead_records_switch_name :
    c3Switch.net_adapter_name = "eth0" ∧
    c3Env.oracle (netAdapterQryCmd c3Switch.name) = "eth0" ∧
    (externalSwitchRead c3Env (freshCtx (Resource.externalSwitch c3Switch))).1.changes =
      [("NetAdapterName", PyVal.str "ext0")] ∧
    (externalSwitchRead c3Env (freshCtx (Resource.externalSwitch c3Switch))).2 =
      Option.none :=
  ⟨rfl, rfl, rfl, rfl⟩

/-- C5 counterexample: with the change set carrying `IovEnabled ↦ True` while
the descriptor declares `enable_Iov = False`, the single update command's
`-EnableIov` clause carries `$False` — the descriptor's value, not the
change's value — so the claim that each clause carries the change-set value is
false at this input. -/
theorem externalSwitchUpdate_value_counterexample :
    dictGet? c5Ctx.changes "IovEnabled" = some (PyVal.bool true) ∧
    (externalSwitchUpdate c5Env c5Ctx).1.commands =
      ["Set-VMSwitch -name \"ext0\" -EnableIov:$False "] :=
  ⟨rfl, rfl⟩

/-- C5 amended: External update issues exactly one update command; the
`NetAdapterName` clause carries the change-set value, the `EnableIov` and
`AllowManagementOS` clauses carry the descriptor's desired values, each clause
appearing precisely when its key is present in the change set with a
non-`None` value. -/
theorem externalSwitchUpdate_one_command
    (env : Env) (ctx : HandlerCtx) (es : ExternalSwitchModel)
    (hres : ctx.resource = Resource.externalSwitch es) :
    (externalSwitchUpdate env ctx).1.commands =
      ctx.commands ++ [extUpdateCmdSpec es ctx.changes] ∧
    (externalSwitchUpdate env ctx).1.deployed = true ∧
    (externalSwitchUpdate env ctx).2 = Option.none := by
  refine ⟨?_, ?_, ?_⟩
  · simp only [externalSwitchUpdate, hres, asExternalSwitch, logCmd, extUpdateCmdSpec,
      spec_clause_eq]
    by_cases h1 : (!isPyNone (dictGetD ctx.changes "NetAdapterName" PyVal.none)) = true <;>
    by_cases h2 : (!isPyNone (dictGetD ctx.changes "IovEnabled" PyVal.none)) = true <;>
    by_cases h3 : (!isPyNone (dictGetD ctx.changes "AllowManagementOS" PyVal.none)) = true <;>
      simp [h1, h2, h3] <;> (apply String.ext; simp [String.data_append, List.append_assoc])
  · simp [externalSwitchUpdate, hres, asExternalSwitch, logCmd]
  · simp [externalSwitchUpdate, hres, asExternalSwitch, logCmd]

/-- Witness for the amended C5 at the concrete fixture. -/
theorem externalSwitchUpdate_one_command_witness :
    (externalSwitchUpdate c5Env c5Ctx).1.commands =
      [extUpdateCmdSpec c5Switch c5Ctx.changes] ∧
    (externalSwitchUpdate c5Env c5Ctx).1.deployed = true ∧
    (externalSwitchUpdate c5Env c5Ctx).2 = Option.none :=
  externalSwitchUpdate_one_command c5Env c5Ctx c5Switch rfl

/-- C7 counterexample: for size "40GB" the issued creation command carries the
size string verbatim (`-SizeBytes 40GB`); it does not carry the derived byte
count 42949672960, so the claim's "explicit byte count" rendering is false at
this input. -/
theorem vhdCreate_size_counterexample :
    (vhdCreate c7Env (freshCtx (Resource.vhd c7Vhd))).1.commands =
      ["New-VHD -Path \"C:/disks/d0.vhdx\" -Fixed -SizeBytes 40GB"] ∧
    containsSub "New-VHD -Path \"C:/disks/d0.vhdx\" -Fixed -SizeBytes 40GB"
      "-SizeBytes 42949672960" = false :=
  ⟨rfl, by decide⟩

/-- C7 amended: Disk create issues exactly one disk-creation command — the
path, the disk-type flag and the descriptor's human-readable size string
rendered verbatim as the `-SizeBytes` argument — with no pre-check for an
existing file (no other remote call precedes it), and marks deployed. -/
theorem vhdCreate_one_command
    (env : Env) (ctx : HandlerCtx) (v : VHDModel)
    (hres : ctx.resource = Resource.vhd v) :
    (vhdCreate env ctx).1.commands = ctx.commands ++ [vhdCreateCmdSpec v] ∧
    (vhdCreate env ctx).1.deployed = true ∧
    (vhdCreate env ctx).2 = Option.none := by
  refine ⟨?_, ?_, ?_⟩ <;> simp [vhdCreate, hres, asVHD, logCmd, vhdCreateCmdSpec]

/-- Witness for the amended C7 at the concrete fixture. -/
theorem vhdCreate_one_command_witness :
    (vhdCreate c7Env (freshCtx (Resource.vhd c7Vhd))).1.commands =
      [vhdCreateCmdSpec c7Vhd] ∧
    (vhdCreate c7Env (freshCtx (Resource.vhd c7Vhd))).1.deployed = true ∧
    (vhdCreate c7Env (freshCtx (Resource.vhd c7Vhd))).2 = Option.none :=
  vhdCreate_one_command c7Env (freshCtx (Resource.vhd c7Vhd)) c7Vhd rfl

theorem toList_append (a b : String) : (a ++ b).toList = a.toList ++ b.toList := by
  simp [String.toList, String.data_append]

theorem isNetAdapterCmd_false_of_lit (lit : String)
    (h1 : disagree ("Remove-VMNetworkAdapter").toList lit.toList = true)
    (h2 : disagree ("Add-VMNetworkAdapter").toList lit.toList = true)
    (h3 : disagree ("Connect-VMNetworkAdapter").toList lit.toList = true)
    (r : String) : isNetAdapterCmd (lit ++ r) = false := by
  unfold isNetAdapterCmd
  rw [toList_append,
    startsWithL_false_of_disagree _ _ (disagree_append _ _ _ h1),
    startsWithL_false_of_disagree _ _ (disagree_append _ _ _ h2),
    startsWithL_false_of_disagree _ _ (disagree_append _ _ _ h3)]
  rfl

theorem startsWithL_lit_true (needle lit r : String)
    (hle : needle.toList.length ≤ lit.toList.length)
    (h : startsWithL needle.toList lit.toList = true) :
    startsWithL needle.toList ((lit ++ r).toList) = true := by
  rw [toList_append, startsWithL_append_of_le _ _ _ hle, h]

theorem isNA_newline : isNetAdapterCmd "\n" = false := by decide

theorem isNA_newItem (r : String) :
    isNetAdapterCmd ("New-Item -Path \"" ++ r) = false :=
  isNetAdapterCmd_false_of_lit _ (by decide) (by decide) (by decide) r

theorem isNA_newVM (r : String) :
    isNetAdapterCmd ("New-VM -Name " ++ r) = false :=
  isNetAdapterCmd_false_of_lit _ (by decide) (by decide) (by decide) r

theorem isNA_setVM (r : String) :
    isNetAdapterCmd ("Set-VM -Name " ++ r) = false :=
  isNetAdapterCmd_false_of_lit _ (by decide) (by decide) (by decide) r

theorem isNA_notes (r : String) :
    isNetAdapterCmd ("-Notes \"Eikobot created VM " ++ r) = false :=
  isNetAdapterCmd_false_of_lit _ (by decide) (by decide) (by decide) r

theorem isNA_ram (r : String) :
    isNetAdapterCmd ("Set-VMMemory -VMName " ++ r) = false :=
  isNetAdapterCmd_false_of_lit _ (by decide) (by decide) (by decide) r

theorem isNA_firmware (r : String) :
    isNetAdapterCmd ("Set-VMFirmware -VMName " ++ r) = false :=
  isNetAdapterCmd_false_of_lit _ (by decide) (by decide) (by decide) r

theorem isNA_dvd (r : String) :
    isNetAdapterCmd ("Set-VMDvdDrive -VMName " ++ r) = false :=
  isNetAdapterCmd_false_of_lit _ (by decide) (by decide) (by decide) r

theorem isNA_addVhd (r : String) :
    isNetAdapterCmd ("Add-VMHardDiskDrive -VMName \"" ++ r) = false :=
  isNetAdapterCmd_false_of_lit _ (by decide) (by decide) (by decide) r

theorem isNA_rm (r : String) :
    isNetAdapterCmd ("Remove-VMNetworkAdapter -VMName \"" ++ r) = true := by
  have h := startsWithL_lit_true "Remove-VMNetworkAdapter"
    "Remove-VMNetworkAdapter -VMName \"" r (by decide) (by decide)
  unfold isNetAdapterCmd
  rw [h]
  simp

theorem isNA_addAdapter (r : String) :
    isNetAdapterCmd ("Add-VMNetworkAdapter -VMName \"" ++ r) = true := by
  have h := startsWithL_lit_true "Add-VMNetworkAdapter"
    "Add-VMNetworkAdapter -VMName \"" r (by decide) (by decide)
  unfold isNetAdapterCmd
  rw [h]
  simp

theorem isNA_connect (r : String) :
    isNetAdapterCmd ("Connect-VMNetworkAdapter -VMName \"" ++ r) = true := by
  have h := startsWithL_lit_true "Connect-VMNetworkAdapter"
    "Connect-VMNetworkAdapter -VMName \"" r (by decide) (by decide)
  unfold isNetAdapterCmd
  rw [h]
  simp

theorem filter_vhd_parts (vmn : String) (vs : List VHDModel) :
    (vs.map (fun vhd => addVhdCmd vmn vhd.path)).filter isNetAdapterCmd = [] := by
  induction vs with
  | nil => rfl
  | cons v t ih => simp [addVhdCmd, String.append_assoc, isNA_addVhd, ih]

theorem filter_adapter_pairs (vmn : String) (ss : List VMSwitchModel) :
    (ss.flatMap
      (fun s => [addAdapterCmd vmn s.name, connectAdapterCmd vmn s.name])).filter
        isNetAdapterCmd =
    ss.flatMap (fun s => [addAdapterCmd vmn s.name, connectAdapterCmd vmn s.name]) := by
  induction ss with
  | nil => rfl
  | cons s t ih =>
    simp only [List.flatMap_cons, List.filter_append, ih, List.filter_cons]
    simp [addAdapterCmd, connectAdapterCmd, String.append_assoc, isNA_addAdapter, isNA_connect]

/-- C6 counterexample: `VMHandler.create` performs no kind check — called on a
disk resource it raises (`AttributeError` at the first `VMModel`-only
attribute interpolation) instead of setting `failed = true` and returning;
`failed` stays false, so the claimed behavior is false for this operation. -/
theorem vmCreate_wrong_kind_counterexample :
    (vmCreate c6Env (freshCtx (Resource.vhd c6Vhd))).2 =
      some "AttributeError: resource is not a VMModel" ∧
    (vmCreate c6Env (freshCtx (Resource.vhd c6Vhd))).1.failed = false ∧
    (vmCreate c6Env (freshCtx (Resource.vhd c6Vhd))).1.commands = [] ∧
    (vmCreate c6Env (freshCtx (Resource.vhd c6Vhd))).1.scripts = [] :=
  ⟨rfl, rfl, rfl, rfl⟩

/-- C6 amended: every guarded operation — all handler methods of the module
except `VMHandler.create` and `VMHandler.read`, which have no kind check — on
a resource instance of the wrong declared kind sets `failed = true` and
returns normally before issuing any remote command or script. -/
theorem guardedOp_wrong_kind_fails_cleanly
    (op : GuardedOp) (env : Env) (ctx : HandlerCtx)
    (hk : opKindOk op ctx.resource = false) :
    (runGuardedOp op env ctx).1.failed = true ∧
    (runGuardedOp op env ctx).1.commands = ctx.commands ∧
    (runGuardedOp op env ctx).1.scripts = ctx.scripts ∧
    (runGuardedOp op env ctx).2 = Option.none := by
  cases op with
  | hostExec =>
    rcases h : asHost ctx.resource with _ | m
    · simp [runGuardedOp, hyperVHostExecute, h, setFailed]
    · simp [opKindOk, h] at hk
  | switchRead =>
    rcases h : asBaseSwitch ctx.resource with _ | m
    · simp [runGuardedOp, vmSwitchRead, h, setFailed]
    · simp [opKindOk, h] at hk
  | internalCreate =>
    rcases h : asInternalSwitch ctx.resource with _ | m
    · simp [runGuardedOp, internalSwitchCreate, h, setFailed]
    · simp [opKindOk, h] at hk
  | privateCreate =>
    rcases h : asPrivateSwitch ctx.resource with _ | m
    · simp [runGuardedOp, privateSwitchCreate, h, setFailed]
    · simp [opKindOk, h] at hk
  | externalRead =>
    rcases h : asExternalSwitch ctx.resource with _ | m
    · simp [runGuardedOp, externalSwitchRead, h, setFailed]
    · simp [opKindOk, h] at hk
  | externalCreate =>
    rcases h : asExternalSwitch ctx.resource with _ | m
    · simp [runGuardedOp, externalSwitchCreate, h, setFailed]
    · simp [opKindOk, h] at hk
  | externalUpdate =>
    rcases h : asExternalSwitch ctx.resource with _ | m
    · simp [runGuardedOp, externalSwitchUpdate, h, setFailed]
    · simp [opKindOk, h] at hk
  | diskCreate =>
    rcases h : asVHD ctx.resource with _ | m
    · simp [runGuardedOp, vhdCreate, h, setFailed]
    · simp [opKindOk, h] at hk
  | diskRead =>
    rcases h : asVHD ctx.resource with _ | m
    · simp [runGuardedOp, vhdRead, h, setFailed]
    · simp [opKindOk, h] at hk

/-- Witness for the amended C6: the shared switch read called on a disk
resource fails cleanly without remote traffic. -/
theorem guardedOp_wrong_kind_fails_cleanly_witness :
    (runGuardedOp GuardedOp.switchRead c6Env (freshCtx (Resource.vhd c6Vhd))).1.failed
      = true ∧
    (runGuardedOp GuardedOp.switchRead c6Env (freshCtx (Resource.vhd c6Vhd))).1.commands
      = [] ∧
    (runGuardedOp GuardedOp.switchRead c6Env (freshCtx (Resource.vhd c6Vhd))).1.scripts
      = [] ∧
    (runGuardedOp GuardedOp.switchRead c6Env (freshCtx (Resource.vhd c6Vhd))).2 =
      Option.none :=
  guardedOp_wrong_kind_fails_cleanly GuardedOp.switchRead c6Env
    (freshCtx (Resource.vhd c6Vhd)) rfl

/-- C8: the machine create script consists, in its adapter section, of exactly
one `Remove-VMNetworkAdapter` command followed by, for each declared switch in
declaration order, exactly one `Add-VMNetworkAdapter` and one
`Connect-VMNetworkAdapter` command naming that switch: filtering the script's
fragments for adapter commands yields precisely that sequence, for every
machine descriptor. -/
theorem vmCreateParts_adapter_section (vm : VMModel) (task_id : String) :
    (vmCreateParts vm task_id).filter isNetAdapterCmd =
      rmNetAdapterCmd vm.name ::
        vm.switches.flatMap
          (fun s => [addAdapterCmd vm.name s.name, connectAdapterCmd vm.name s.name]) := by
  unfold vmCreateParts
  cases hp : vm.path <;> cases hsb : vm.secure_boot <;> cases hiso : vm.iso_path <;>
    simp [List.filter_append, List.filter_cons, vmNewVmCmd, vmRamCmd, vmFirmwareCmd,
      rmNetAdapterCmd, hp, hsb, hiso, String.append_assoc, isNA_newline, isNA_newItem,
      isNA_newVM, isNA_setVM, isNA_notes, isNA_ram, isNA_firmware, isNA_dvd,
      filter_vhd_parts, filter_adapter_pairs, isNA_rm]

theorem pyEq_str_int (s : String) (n : Int) :
    pyEq (PyVal.str s) (PyVal.int n) = false := rfl

theorem compareStartupOptions_delay (env : Env) (vm : VMModel) (ctx : HandlerCtx) (d : Int)
    (hd : vm.automatic_start_delay = some d) :
    dictGet? (compareStartupOptions env vm ctx).changes "automatic_start_delay" =
      some (PyVal.int d) := by
  unfold compareStartupOptions
  rw [hd]
  rcases ha : vm.automatic_start_action with _ | a <;>
    rcases hs : vm.automatic_stop_action with _ | sa <;>
    simp only [pyEq_str_int, Bool.not_false, if_true, logCmd, addChange] <;>
    first
      | (split_ifs <;> simp [addChange, dictGet?_dictSet_self, dictGet?_dictSet_ne])
      | simp [addChange, dictGet?_dictSet_self, dictGet?_dictSet_ne]

theorem compareSecureBoot_preserves (env : Env) (vm : VMModel) (ctx : HandlerCtx)
    (k : String) (h1 : k ≠ "secure_boot") (h2 : k ≠ "secure_boot_template") :
    dictGet? (compareSecureBoot env vm ctx).changes k = dictGet? ctx.changes k := by
  unfold compareSecureBoot
  rcases hsb : vm.secure_boot with _ | b
  · rfl
  · rcases ht : vm.secure_boot_template with _ | t <;>
      simp only [logCmd, addChange] <;>
      split_ifs <;>
      simp [addChange, logCmd, dictGet?_dictSet_ne (Ne.symm h1),
        dictGet?_dictSet_ne (Ne.symm h2)]

/-- C9: the secure-boot comparison of Machine read.  With `secure_boot`
declared and the change set not yet holding the two keys: a `secure_boot`
change is recorded precisely when the observed boot-state text rendered as a
boolean (`output == "On"`) EQUALS the desired flag — the inverted test — and,
when a template name is declared, the handler issues the same `.SecureBoot`
boot-state query a second time (not a template query) and records a
`secure_boot_template` change precisely when that output equals the declared
template name. -/
theorem compareSecureBoot_inverted_and_template
    (env : Env) (ctx : HandlerCtx) (vm : VMModel) (b : Bool)
    (hsb : vm.secure_boot = some b)
    (h1 : dictGet? ctx.changes "secure_boot" = Option.none)
    (h2 : dictGet? ctx.changes "secure_boot_template" = Option.none) :
    (dictGet? (compareSecureBoot env vm ctx).changes "secure_boot" =
      (if (env.oracle (secureBootQry vm.name) == "On") == b then some (PyVal.bool b)
       else Option.none)) ∧
    (vm.secure_boot_template = Option.none →
      (compareSecureBoot env vm ctx).commands = ctx.commands ++ [secureBootQry vm.name]) ∧
    (∀ t, vm.secure_boot_template = some t →
      (compareSecureBoot env vm ctx).commands =
        ctx.commands ++ [secureBootQry vm.name, secureBootQry vm.name] ∧
      dictGet? (compareSecureBoot env vm ctx).changes "secure_boot_template" =
        (if env.oracle (secureBootQry vm.name) == t then some (PyVal.str t)
         else Option.none)) := by
  have hne : ("secure_boot_template" : String) ≠ "secure_boot" := by decide
  refine ⟨?_, ?_, ?_⟩
  · unfold compareSecureBoot
    rw [hsb]
    rcases ht : vm.secure_boot_template with _ | t <;>
      simp only [logCmd, addChange] <;>
      split_ifs <;>
      simp_all [addChange, logCmd, dictGet?_dictSet_self, dictGet?_dictSet_ne hne]
  · intro htn
    unfold compareSecureBoot
    rw [hsb, htn]
    simp only [logCmd, addChange]
    split_ifs <;> simp [addChange, logCmd]
  · intro t ht
    unfold compareSecureBoot
    rw [hsb, ht]
    simp only [logCmd, addChange]
    constructor
    · split_ifs <;> simp [addChange, logCmd]
    · split_ifs <;>
        simp_all [addChange, logCmd, dictGet?_dictSet_self,
          dictGet?_dictSet_ne (Ne.symm hne), dictGet?_dictSet_ne hne]

/-- Witness for C9: concrete machine `vm9` with secure boot declared on and a
template declared; the remote answers "On", so the inverted test records a
`secure_boot` change even though the observed state matches the desired one,
the boot-state query is issued twice, and no template change is recorded
because "On" differs from the template name. -/
theorem compareSecureBoot_inverted_and_template_witness :
    dictGet? (compareSecureBoot c9Env c9Vm (freshCtx (Resource.vm c9Vm))).changes
      "secure_boot" = some (PyVal.bool true) ∧
    (compareSecureBoot c9Env c9Vm (freshCtx (Resource.vm c9Vm))).commands =
      [secureBootQry "vm9", secureBootQry "vm9"] ∧
    dictGet? (compareSecureBoot c9Env c9Vm (freshCtx (Resource.vm c9Vm))).changes
      "secure_boot_template" = Option.none := by
  have h := compareSecureBoot_inverted_and_template c9Env
    (freshCtx (Resource.vm c9Vm)) c9Vm true rfl rfl rfl
  refine ⟨?_, ?_, ?_⟩
  · have := h.1
    simpa using this
  · have := (h.2.2 "MicrosoftUEFICertificateAuthority" rfl).1
    simpa using this
  · have := (h.2.2 "MicrosoftUEFICertificateAuthority" rfl).2
    simpa using this

/-- C10: Machine read on a present VM with `automatic_start_delay` declared
always records an `automatic_start_delay` change, whatever the remote answers
to the start-delay query (the environment is universally quantified), because
the raw text output of the query is compared against the integer field and a
Python `str` never equals an `int` (last conjunct).  The other hypotheses say
only that the read reaches the startup-option comparisons: the VM-state query
parses to a record with a textual `ConfigurationLocation`, the processor query
parses with an integer `Count`, and no disks or switches are declared. -/
theorem vmRead_always_records_start_delay
    (env : Env) (ctx : HandlerCtx) (vm : VMModel) (d : Int)
    (fs cfs : List (String × PyVal)) (cl : String) (cnt : Int)
    (hres : ctx.resource = Resource.vm vm)
    (hd : vm.automatic_start_delay = some d)
    (habs : containsSub (env.oracle (getVMCmd vm.name)) vmAbsentPhrase = false)
    (hj : env.jparse (env.oracle (getVMCmd vm.name)) = some (PyVal.dict fs))
    (hcl : dictGetD fs "ConfigurationLocation" PyVal.none = PyVal.str cl)
    (hcj : env.jparse (env.oracle (cpuQryCmd vm.name)) = some (PyVal.dict cfs))
    (hcnt : dictGetD cfs "Count" (PyVal.int 1) = PyVal.int cnt)
    (hvhds : vm.vhds = [])
    (hsw : vm.switches = []) :
    dictGet? (vmRead env ctx).1.changes "automatic_start_delay" = some (PyVal.int d) ∧
    (vmRead env ctx).2 = Option.none ∧
    (∀ (s : String) (n : Int), pyEq (PyVal.str s) (PyVal.int n) = false) := by
  have hMain : ∀ ctx0 : HandlerCtx,
      dictGet? (compareSecureBoot env vm (compareStartupOptions env vm ctx0)).changes
        "automatic_start_delay" = some (PyVal.int d) := by
    intro ctx0
    rw [compareSecureBoot_preserves env vm _ _ (by decide) (by decide),
      compareStartupOptions_delay env vm ctx0 d hd]
  refine ⟨?_, ?_, fun s n => rfl⟩ <;>
  · simp only [vmRead, hres, asVM, habs, Bool.false_eq_true, if_false, hj, hcl, pathOfVal,
      getCpuChanges, hcj, hcnt, pyToInt, compareVhds, hvhds, compareNetAdapters, hsw,
      logCmd, addChange, addWarning]
    rcases hp : vm.path with _ | vp <;>
      simp only [hp] <;>
      split_ifs <;>
      simp [hMain]

/-- Witness for C10: on the concrete remote, where the start-delay query
answers the text "5" while the declared delay is the integer 5, the read still
records the `automatic_start_delay` change and completes normally. -/
theorem vmRead_always_records_start_delay_witness :
    dictGet? (vmRead c10Env (freshCtx (Resource.vm c10Vm))).1.changes
      "automatic_start_delay" = some (PyVal.int 5) ∧
    (vmRead c10Env (freshCtx (Resource.vm c10Vm))).2 = Option.none := by
  have h := vmRead_always_records_start_delay c10Env (freshCtx (Resource.vm c10Vm)) c10Vm 5
    [("ConfigurationLocation", PyVal.str "C:/vms/vm10")] [("Count", PyVal.int 1)]
    "C:/vms/vm10" 1 rfl rfl (by decide) rfl rfl rfl rfl rfl rfl
  exact ⟨h.1, h.2.1⟩

end HyperV
